import Mathlib

set_option maxRecDepth 8000

/-!
Shallow embedding of `src/apps/log-receiver/xdp_filter.c`: an XDP packet
admission filter that parses Ethernet/IPv4/TCP-UDP headers, gates on a
destination-port allow-list, scans a CIDR rule table, and maintains
per-context statistics counters.
-/

namespace XdpFilter

/-- XDP verdict codes used by the filter: XDP_PASS admits the frame to the
network stack, XDP_DROP discards it. -/
inductive XdpAction where
  | PASS : XdpAction
  | DROP : XdpAction
deriving DecidableEq

/-- struct cidr_rule (xdp_filter.c lines 14-20): network and mask are u32
values in network byte order, port is a u16 (0 = any port), enabled is the
activation flag. -/
structure CidrRule where
  network : Nat
  mask : Nat
  port : Nat
  enabled : Bool
deriving DecidableEq

/-- struct xdp_stats (lines 23-34): the ten u64 counters.  Counters are
modelled as unbounded naturals; u64 wrap-around at 2^64 is not modelled. -/
structure XdpStats where
  packets_total : Nat
  packets_allowed : Nat
  packets_blocked : Nat
  bytes_total : Nat
  bytes_allowed : Nat
  bytes_blocked : Nat
  tcp_packets : Nat
  udp_packets : Nat
  syslog_packets : Nat
  api_packets : Nat
deriving DecidableEq

/-- The all-zero counter block the statistics map starts from. -/
def XdpStats.zero : XdpStats := ⟨0, 0, 0, 0, 0, 0, 0, 0, 0, 0⟩

/-- The two rule maps (lines 37-49).  BPF array maps are preallocated, so a
lookup with a key below the capacity always succeeds; the maps are modelled
as total functions, read only at indices below the respective capacity
(1024 CIDR slots, 64 port slots). -/
structure FilterConfig where
  cidr_rules : Nat → CidrRule
  allowed_ports : Nat → Nat

/-- check_cidr_match (lines 59-69): a disabled rule never matches; otherwise
compare source IP and rule network under the rule's subnet mask. -/
def check_cidr_match (ip : Nat) (rule : CidrRule) : Bool :=
  if rule.enabled = false then false
  else decide (ip &&& rule.mask = rule.network &&& rule.mask)

/-- The loop of check_port_allowed (lines 73-81), scanning the allow-list
from slot `i` with `fuel` iterations remaining (the loop runs `i` from 0
to 63, so the entry point uses fuel 64).  A slot holding 0 terminates the
scan; a slot equal to `port` accepts. -/
def check_port_loop (tbl : Nat → Nat) (port : Nat) : Nat → Nat → Bool
  | _, 0 => false
  | i, fuel + 1 =>
    if tbl i = 0 then false
    else if tbl i = port then true
    else check_port_loop tbl port (i + 1) fuel

/-- check_port_allowed (lines 72-83). -/
def check_port_allowed (tbl : Nat → Nat) (port : Nat) : Bool :=
  check_port_loop tbl port 0 64

/-- The CIDR scan loop of xdp_filter_func (lines 186-202), from slot `i`
with `fuel` iterations remaining (entry point uses fuel 1024): skip
disabled slots and slots whose specific port differs from the packet's
destination port, accept on the first masked source-network match. -/
def find_cidr_loop (rules : Nat → CidrRule) (src_ip dest_port : Nat) :
    Nat → Nat → Bool
  | _, 0 => false
  | i, fuel + 1 =>
    if (rules i).enabled = false then
      find_cidr_loop rules src_ip dest_port (i + 1) fuel
    else if (rules i).port ≠ 0 ∧ (rules i).port ≠ dest_port then
      find_cidr_loop rules src_ip dest_port (i + 1) fuel
    else if check_cidr_match src_ip (rules i) = true then true
    else find_cidr_loop rules src_ip dest_port (i + 1) fuel

/-- The argument tuple passed to update_stats (line 86). -/
structure StatsArgs where
  packet_size : Nat
  allowed : Bool
  is_tcp : Bool
  is_udp : Bool
  is_syslog : Bool
  is_api : Bool
deriving DecidableEq

/-- update_stats (lines 86-115) as a pure transformer of the counter block:
total counters unconditionally, allowed or blocked counters according to
`allowed`, then the classification counters (note the else-if between TCP
and UDP). -/
def update_stats (a : StatsArgs) (s : XdpStats) : XdpStats :=
  let s1 := { s with packets_total := s.packets_total + 1,
                     bytes_total := s.bytes_total + a.packet_size }
  let s2 :=
    if a.allowed = true then
      { s1 with packets_allowed := s1.packets_allowed + 1,
                bytes_allowed := s1.bytes_allowed + a.packet_size }
    else
      { s1 with packets_blocked := s1.packets_blocked + 1,
                bytes_blocked := s1.bytes_blocked + a.packet_size }
  if a.is_tcp = true then
    let s3 := { s2 with tcp_packets := s2.tcp_packets + 1 }
    if a.is_api = true then { s3 with api_packets := s3.api_packets + 1 } else s3
  else if a.is_udp = true then
    let s3 := { s2 with udp_packets := s2.udp_packets + 1 }
    if a.is_syslog = true then
      { s3 with syslog_packets := s3.syslog_packets + 1 }
    else s3
  else s2

/-- Apply an optional statistics update (none on the paths that return
before any update_stats call). -/
def apply_stats : Option StatsArgs → XdpStats → XdpStats
  | none, s => s
  | some a, s => update_stats a s

/-- Byte `i` of a frame buffer (reads past the end never happen on the
paths the code takes; they default to 0). -/
def byteAt (f : List Nat) (i : Nat) : Nat := f.getD i 0

/-- A 16-bit field read in network byte order (so the logical value of
h_proto and of the ports, as bpf_ntohs yields). -/
def readU16BE (f : List Nat) (i : Nat) : Nat :=
  256 * byteAt f i + byteAt f (i + 1)

/-- A 32-bit field read in network byte order (the saddr compare is done
against rule fields stored in the same byte order, so the choice of read
order is immaterial as long as it is consistent). -/
def readU32BE (f : List Nat) (i : Nat) : Nat :=
  16777216 * byteAt f i + 65536 * byteAt f (i + 1)
    + 256 * byteAt f (i + 2) + byteAt f (i + 3)

/-- Outcome of the header-parsing prefix of xdp_filter_func. -/
inductive ParseResult where
  | passFrame : ParseResult
  | dropFrame : ParseResult
  | parsed (src_ip dest_port : Nat) (is_tcp is_udp is_syslog is_api : Bool)
      (packet_size : Nat) : ParseResult
deriving DecidableEq

/-- Lines 119-177 of xdp_filter_func: bounds checks and Ethernet/IPv4/
transport header parsing with traffic-class tagging.  The Ethernet header
is 14 bytes (h_proto at offset 12, ETH_P_IP = 0x0800); the fixed IPv4
header is 20 bytes (ihl is the low nibble of byte 14, protocol at byte 23,
saddr at bytes 26-29; IPPROTO_TCP = 6, IPPROTO_UDP = 17); the transport
header starts at 14 + ihl*4 with the destination port at its offset 2,
and sizeof(tcphdr) = 20, sizeof(udphdr) = 8.  `passFrame` is XDP_PASS
before any statistics update, `dropFrame` XDP_DROP before any update. -/
def parse_frame (f : List Nat) : ParseResult :=
  if f.length < 14 then .passFrame
  else if readU16BE f 12 ≠ 0x0800 then .passFrame
  else if f.length < 34 then .passFrame
  else if byteAt f 14 % 16 < 5 then .dropFrame
  else if byteAt f 23 = 6 then
    if f.length < 14 + byteAt f 14 % 16 * 4 + 20 then .dropFrame
    else
      .parsed (readU32BE f 26) (readU16BE f (14 + byteAt f 14 % 16 * 4 + 2))
        true false false
        (decide (readU16BE f (14 + byteAt f 14 % 16 * 4 + 2) = 80
          ∨ readU16BE f (14 + byteAt f 14 % 16 * 4 + 2) = 443
          ∨ readU16BE f (14 + byteAt f 14 % 16 * 4 + 2) = 8081
          ∨ readU16BE f (14 + byteAt f 14 % 16 * 4 + 2) = 8082))
        f.length
  else if byteAt f 23 = 17 then
    if f.length < 14 + byteAt f 14 % 16 * 4 + 8 then .dropFrame
    else
      .parsed (readU32BE f 26) (readU16BE f (14 + byteAt f 14 % 16 * 4 + 2))
        false true
        (decide (10000 ≤ readU16BE f (14 + byteAt f 14 % 16 * 4 + 2)
          ∧ readU16BE f (14 + byteAt f 14 % 16 * 4 + 2) ≤ 11000))
        false f.length
  else .passFrame

/-- Lines 179-210 of xdp_filter_func: port gate, CIDR scan, and final
verdict for an already-parsed packet, together with the argument tuple
handed to update_stats on that path. -/
def decide_packet (cfg : FilterConfig) (src_ip dest_port : Nat)
    (is_tcp is_udp is_syslog is_api : Bool) (packet_size : Nat) :
    XdpAction × StatsArgs :=
  if check_port_allowed cfg.allowed_ports dest_port = false then
    (.DROP, ⟨packet_size, false, is_tcp, is_udp, is_syslog, is_api⟩)
  else
    (if find_cidr_loop cfg.cidr_rules src_ip dest_port 0 1024 = true
     then .PASS else .DROP,
      ⟨packet_size, find_cidr_loop cfg.cidr_rules src_ip dest_port 0 1024,
        is_tcp, is_udp, is_syslog, is_api⟩)

/-- xdp_filter_func (lines 117-211): parse, then decide.  The second
component records the update_stats call, `none` on the early-return
paths that update no counter. -/
def xdp_filter_func (cfg : FilterConfig) (f : List Nat) :
    XdpAction × Option StatsArgs :=
  match parse_frame f with
  | .passFrame => (.PASS, none)
  | .dropFrame => (.DROP, none)
  | .parsed src_ip dest_port tcp udp sys api sz =>
    ((decide_packet cfg src_ip dest_port tcp udp sys api sz).1,
      some (decide_packet cfg src_ip dest_port tcp udp sys api sz).2)

/-- Process a sequence of frames through the filter, accumulating the
statistics effects in order. -/
def run_filter (cfg : FilterConfig) (fs : List (List Nat)) (s : XdpStats) :
    XdpStats :=
  fs.foldl (fun acc f => apply_stats (xdp_filter_func cfg f).2 acc) s

/-- The per-slot match condition of the CIDR scan, as the spec states it:
enabled, port wildcard or exact destination-port match, and masked
source-network equality. -/
def slot_match (rule : CidrRule) (src_ip dest_port : Nat) : Prop :=
  rule.enabled = true ∧ (rule.port = 0 ∨ rule.port = dest_port)
    ∧ src_ip &&& rule.mask = rule.network &&& rule.mask

/-- End of the byte region the filter can read from a frame: link-layer
header plus declared IPv4 header plus the transport header of the declared
protocol (20 bytes for TCP, 8 for UDP, none otherwise). -/
def header_end (f : List Nat) : Nat :=
  14 + byteAt f 14 % 16 * 4 +
    (if byteAt f 23 = 6 then 20 else if byteAt f 23 = 17 then 8 else 0)

/-- A 54-byte Ethernet + IPv4 + TCP frame: ihl = 5, source 10.0.0.5,
destination port 22. -/
def tcpFrame22 : List Nat :=
  [0, 0, 0, 0, 0, 0, 0, 0, 0, 0, 0, 0, 8, 0,
   69, 0, 0, 40, 0, 0, 0, 0, 64, 6, 0, 0, 10, 0, 0, 5, 10, 0, 0, 9,
   0, 99, 0, 22, 0, 0, 0, 0, 0, 0, 0, 0, 0, 0, 0, 0, 0, 0, 0, 0]

/-- The same frame with destination port 0. -/
def tcpFrame0 : List Nat :=
  [0, 0, 0, 0, 0, 0, 0, 0, 0, 0, 0, 0, 8, 0,
   69, 0, 0, 40, 0, 0, 0, 0, 64, 6, 0, 0, 10, 0, 0, 5, 10, 0, 0, 9,
   0, 99, 0, 0, 0, 0, 0, 0, 0, 0, 0, 0, 0, 0, 0, 0, 0, 0, 0, 0]

/-- A 42-byte Ethernet + IPv4 + UDP frame: ihl = 5, source 10.0.0.5,
destination port 10500. -/
def udpFrame10500 : List Nat :=
  [0, 0, 0, 0, 0, 0, 0, 0, 0, 0, 0, 0, 8, 0,
   69, 0, 0, 28, 0, 0, 0, 0, 64, 17, 0, 0, 10, 0, 0, 5, 10, 0, 0, 9,
   0, 99, 41, 4, 0, 8, 0, 0]

/-- A 34-byte frame recognized as IPv4 but carrying a malformed
header-length nibble (ihl = 4) and protocol 42, neither TCP nor UDP. -/
def badIhlFrame : List Nat :=
  [0, 0, 0, 0, 0, 0, 0, 0, 0, 0, 0, 0, 8, 0,
   68, 0, 0, 20, 0, 0, 0, 0, 64, 42, 0, 0, 10, 0, 0, 5, 10, 0, 0, 9]

/-- A 34-byte frame recognized as IPv4 with ihl = 5 and protocol TCP, too
short to hold the 20-byte TCP header. -/
def tcpTruncFrame : List Nat :=
  [0, 0, 0, 0, 0, 0, 0, 0, 0, 0, 0, 0, 8, 0,
   69, 0, 0, 20, 0, 0, 0, 0, 64, 6, 0, 0, 10, 0, 0, 5, 10, 0, 0, 9]

/-- An empty configuration: all CIDR slots disabled, empty port
allow-list. -/
def cfg0 : FilterConfig := ⟨fun _ => ⟨0, 0, 0, false⟩, fun _ => 0⟩

/-- Allow-list [22, 0, ...]; CIDR slot 0 = 10.0.0.0/24, any port,
enabled (the worked example of the spec, §8). -/
def cfgA : FilterConfig :=
  ⟨fun i => if i = 0 then ⟨167772160, 4294967040, 0, true⟩
            else ⟨0, 0, 0, false⟩,
   fun i => if i = 0 then 22 else 0⟩

theorem update_stats_fields (a : StatsArgs) (s : XdpStats) :
    (update_stats a s).packets_total = s.packets_total + 1
    ∧ (update_stats a s).bytes_total = s.bytes_total + a.packet_size
    ∧ (update_stats a s).packets_allowed
        = s.packets_allowed + (if a.allowed = true then 1 else 0)
    ∧ (update_stats a s).bytes_allowed
        = s.bytes_allowed + (if a.allowed = true then a.packet_size else 0)
    ∧ (update_stats a s).packets_blocked
        = s.packets_blocked + (if a.allowed = true then 0 else 1)
    ∧ (update_stats a s).bytes_blocked
        = s.bytes_blocked + (if a.allowed = true then 0 else a.packet_size)
    ∧ (update_stats a s).tcp_packets
        = s.tcp_packets + (if a.is_tcp = true then 1 else 0)
    ∧ (update_stats a s).api_packets
        = s.api_packets + (if a.is_tcp = true ∧ a.is_api = true then 1 else 0)
    ∧ (update_stats a s).udp_packets
        = s.udp_packets + (if a.is_tcp = false ∧ a.is_udp = true then 1 else 0)
    ∧ (update_stats a s).syslog_packets
        = s.syslog_packets
          + (if a.is_tcp = false ∧ a.is_udp = true ∧ a.is_syslog = true
             then 1 else 0) := by
  rcases a with ⟨sz, al, tcp, udp, sys, api⟩
  cases al <;> cases tcp <;> cases udp <;> cases sys <;> cases api <;>
    simp [update_stats]

theorem check_port_loop_iff (tbl : Nat → Nat) (port : Nat) :
    ∀ fuel i, (check_port_loop tbl port i fuel = true ↔
      ∃ k, i ≤ k ∧ k < i + fuel ∧ tbl k = port
        ∧ ∀ j, i ≤ j → j ≤ k → tbl j ≠ 0) := by
  intro fuel
  induction fuel with
  | zero =>
    intro i
    simp only [check_port_loop]
    constructor
    · intro h; exact absurd h (by simp)
    · rintro ⟨k, h1, h2, -, -⟩; omega
  | succ n ih =>
    intro i
    simp only [check_port_loop]
    by_cases h0 : tbl i = 0
    · simp only [if_pos h0]
      constructor
      · intro h; exact absurd h (by simp)
      · rintro ⟨k, h1, h2, h3, h4⟩
        exact absurd h0 (h4 i le_rfl h1)
    · simp only [if_neg h0]
      by_cases hp : tbl i = port
      · simp only [if_pos hp]
        constructor
        · intro _
          refine ⟨i, le_rfl, by omega, hp, ?_⟩
          intro j hj1 hj2
          have hji : j = i := le_antisymm hj2 hj1
          rw [hji]; exact h0
        · intro _; trivial
      · simp only [if_neg hp]
        rw [ih (i + 1)]
        constructor
        · rintro ⟨k, h1, h2, h3, h4⟩
          refine ⟨k, by omega, by omega, h3, ?_⟩
          intro j hj1 hj2
          rcases Nat.eq_or_lt_of_le hj1 with hji | hlt
          · rw [← hji]; exact h0
          · exact h4 j hlt hj2
        · rintro ⟨k, h1, h2, h3, h4⟩
          have hik : i ≠ k := fun he => hp (by rw [he]; exact h3)
          refine ⟨k, by omega, by omega, h3, ?_⟩
          intro j hj1 hj2
          exact h4 j (by omega) hj2

theorem check_port_allowed_iff (tbl : Nat → Nat) (port : Nat) :
    check_port_allowed tbl port = true ↔
      ∃ k, k < 64 ∧ tbl k = port ∧ ∀ j, j ≤ k → tbl j ≠ 0 := by
  rw [check_port_allowed, check_port_loop_iff]
  constructor
  · rintro ⟨k, -, h2, h3, h4⟩
    exact ⟨k, by omega, h3, fun j hj => h4 j (Nat.zero_le j) hj⟩
  · rintro ⟨k, h1, h2, h3⟩
    exact ⟨k, Nat.zero_le k, by omega, h2, fun j _ hj => h3 j hj⟩

theorem check_port_loop_port_zero (tbl : Nat → Nat) :
    ∀ fuel i, check_port_loop tbl 0 i fuel = false := by
  intro fuel
  induction fuel with
  | zero => intro i; rfl
  | succ n ih =>
    intro i
    simp only [check_port_loop]
    by_cases h0 : tbl i = 0
    · simp [h0]
    · simp [h0, ih]

theorem check_port_loop_agree (tbl tbl2 : Nat → Nat) (port : Nat) :
    ∀ fuel i,
      (∀ j, i ≤ j → j < i + fuel → tbl2 j = tbl j) →
      check_port_loop tbl2 port i fuel = check_port_loop tbl port i fuel := by
  intro fuel
  induction fuel with
  | zero => intro i _; rfl
  | succ n ih =>
    intro i hag
    have hi : tbl2 i = tbl i := hag i le_rfl (by omega)
    simp only [check_port_loop, hi]
    by_cases h0 : tbl i = 0
    · simp [h0]
    · by_cases hp : tbl i = port
      · simp [h0, hp]
      · simp only [if_neg h0, if_neg hp]
        exact ih (i + 1) (fun j hj1 hj2 => hag j (by omega) (by omega))

theorem check_port_loop_stops_at_zero (tbl tbl2 : Nat → Nat) (port : Nat) :
    ∀ fuel i z, i ≤ z → tbl z = 0 → tbl2 z = 0 →
      (∀ j, i ≤ j → j ≤ z → tbl2 j = tbl j) →
      check_port_loop tbl2 port i fuel = check_port_loop tbl port i fuel := by
  intro fuel
  induction fuel with
  | zero => intro i z _ _ _ _; rfl
  | succ n ih =>
    intro i z hiz hz hz2 hag
    have hi : tbl2 i = tbl i := hag i le_rfl hiz
    simp only [check_port_loop, hi]
    by_cases h0 : tbl i = 0
    · simp [h0]
    · by_cases hp : tbl i = port
      · simp [h0, hp]
      · simp only [if_neg h0, if_neg hp]
        have hiz2 : i + 1 ≤ z := by
          rcases Nat.eq_or_lt_of_le hiz with he | hlt
          · exact absurd (by rw [he]; exact hz) h0
          · omega
        exact ih (i + 1) z hiz2 hz hz2
          (fun j hj1 hj2 => hag j (by omega) hj2)

theorem find_cidr_loop_iff (rules : Nat → CidrRule) (src_ip dest_port : Nat) :
    ∀ fuel i, (find_cidr_loop rules src_ip dest_port i fuel = true ↔
      ∃ j, i ≤ j ∧ j < i + fuel ∧ slot_match (rules j) src_ip dest_port) := by
  intro fuel
  induction fuel with
  | zero =>
    intro i
    simp only [find_cidr_loop]
    constructor
    · intro h; exact absurd h (by simp)
    · rintro ⟨j, h1, h2, -⟩; omega
  | succ n ih =>
    intro i
    simp only [find_cidr_loop]
    by_cases he : (rules i).enabled = false
    · simp only [if_pos he]
      rw [ih (i + 1)]
      constructor
      · rintro ⟨j, h1, h2, h3⟩
        exact ⟨j, by omega, by omega, h3⟩
      · rintro ⟨j, h1, h2, h3⟩
        rcases Nat.eq_or_lt_of_le h1 with hji | hlt
        · exact absurd h3.1 (by rw [← hji, he]; simp)
        · exact ⟨j, by omega, by omega, h3⟩
    · have he' : (rules i).enabled = true := by
        revert he; cases (rules i).enabled <;> simp
      simp only [if_neg he]
      by_cases hp : (rules i).port ≠ 0 ∧ (rules i).port ≠ dest_port
      · simp only [if_pos hp]
        rw [ih (i + 1)]
        constructor
        · rintro ⟨j, h1, h2, h3⟩
          exact ⟨j, by omega, by omega, h3⟩
        · rintro ⟨j, h1, h2, h3⟩
          rcases Nat.eq_or_lt_of_le h1 with hji | hlt
          · rw [← hji] at h3
            rcases h3.2.1 with hc | hc
            · exact absurd hc hp.1
            · exact absurd hc hp.2
          · exact ⟨j, by omega, by omega, h3⟩
      · simp only [if_neg hp]
        have hport : (rules i).port = 0 ∨ (rules i).port = dest_port := by
          by_cases h1 : (rules i).port = 0
          · exact Or.inl h1
          · right
            by_contra h2
            exact hp ⟨h1, h2⟩
        by_cases hm : check_cidr_match src_ip (rules i) = true
        · simp only [if_pos hm]
          have hmask : src_ip &&& (rules i).mask
              = (rules i).network &&& (rules i).mask := by
            rw [check_cidr_match, if_neg (by rw [he']; simp)] at hm
            exact of_decide_eq_true hm
          constructor
          · intro _
            exact ⟨i, le_rfl, by omega, he', hport, hmask⟩
          · intro _; trivial
        · simp only [if_neg hm]
          rw [ih (i + 1)]
          have hnm : ¬ slot_match (rules i) src_ip dest_port := by
            rintro ⟨-, -, h3⟩
            apply hm
            rw [check_cidr_match, if_neg (by rw [he']; simp)]
            exact decide_eq_true h3
          constructor
          · rintro ⟨j, h1, h2, h3⟩
            exact ⟨j, by omega, by omega, h3⟩
          · rintro ⟨j, h1, h2, h3⟩
            rcases Nat.eq_or_lt_of_le h1 with hji | hlt
            · exact absurd (by rw [hji]; exact h3) hnm
            · exact ⟨j, by omega, by omega, h3⟩

theorem find_cidr_iff (rules : Nat → CidrRule) (src_ip dest_port : Nat) :
    find_cidr_loop rules src_ip dest_port 0 1024 = true ↔
      ∃ j, j < 1024 ∧ slot_match (rules j) src_ip dest_port := by
  rw [find_cidr_loop_iff]
  constructor
  · rintro ⟨j, -, h2, h3⟩; exact ⟨j, by omega, h3⟩
  · rintro ⟨j, h1, h2⟩; exact ⟨j, Nat.zero_le j, by omega, h2⟩

theorem run_filter_cons (cfg : FilterConfig) (f : List Nat)
    (fs : List (List Nat)) (s : XdpStats) :
    run_filter cfg (f :: fs) s
      = run_filter cfg fs (apply_stats (xdp_filter_func cfg f).2 s) := rfl

theorem run_filter_counts (cfg : FilterConfig) :
    ∀ fs : List (List Nat),
      (∀ f ∈ fs, ((xdp_filter_func cfg f).2).isSome = true) →
      ∀ s : XdpStats,
        (run_filter cfg fs s).packets_total = s.packets_total + fs.length
        ∧ (run_filter cfg fs s).packets_allowed
            + (run_filter cfg fs s).packets_blocked
          = s.packets_allowed + s.packets_blocked + fs.length
        ∧ (run_filter cfg fs s).bytes_allowed
            + (run_filter cfg fs s).bytes_blocked + s.bytes_total
          = (run_filter cfg fs s).bytes_total
            + s.bytes_allowed + s.bytes_blocked := by
  intro fs
  induction fs with
  | nil =>
    intro _ s
    simp only [run_filter, List.foldl_nil, List.length_nil]
    exact ⟨by omega, by omega, by omega⟩
  | cons f fs ih =>
    intro h s
    obtain ⟨a, ha⟩ : ∃ a, (xdp_filter_func cfg f).2 = some a :=
      Option.isSome_iff_exists.mp (h f (List.mem_cons_self f fs))
    have hrest : ∀ g ∈ fs, ((xdp_filter_func cfg g).2).isSome = true :=
      fun g hg => h g (List.mem_cons_of_mem f hg)
    rw [run_filter_cons, ha]
    have hih := ih hrest (apply_stats (some a) s)
    simp only [apply_stats] at hih ⊢
    rcases hih with ⟨i1, i2, i3⟩
    rcases update_stats_fields a s with ⟨u1, u2, u3, u4, u5, u6, -, -, -, -⟩
    simp only [List.length_cons]
    by_cases hal : a.allowed = true
    · simp only [if_pos hal] at u3 u4 u5 u6
      exact ⟨by omega, by omega, by omega⟩
    · simp only [if_neg hal] at u3 u4 u5 u6
      exact ⟨by omega, by omega, by omega⟩

theorem parse_frame_flags (f : List Nat) (src_ip dest_port : Nat)
    (tcp udp sys api : Bool) (sz : Nat)
    (hp : parse_frame f = .parsed src_ip dest_port tcp udp sys api sz) :
    ((tcp = true ∧ udp = false) ∨ (tcp = false ∧ udp = true))
      ∧ sz = f.length := by
  unfold parse_frame at hp
  repeat' split at hp
  all_goals simp_all

theorem parse_frame_tags (f : List Nat) (src_ip dest_port : Nat)
    (tcp udp sys api : Bool) (sz : Nat)
    (hp : parse_frame f = .parsed src_ip dest_port tcp udp sys api sz) :
    (api = true ↔ tcp = true ∧ (dest_port = 80 ∨ dest_port = 443
        ∨ dest_port = 8081 ∨ dest_port = 8082))
    ∧ (sys = true ↔ udp = true ∧ 10000 ≤ dest_port ∧ dest_port ≤ 11000) := by
  unfold parse_frame at hp
  repeat' split at hp
  all_goals simp_all
  · obtain ⟨-, e2, -, -, -, e6, -⟩ := hp
    subst e2
    rw [← e6]
    simp
  · obtain ⟨-, e2, -, -, e5, -, -⟩ := hp
    subst e2
    rw [← e5]
    simp

theorem parse_frame_agree (f g : List Nat) (hlen : f.length = g.length)
    (hagree : ∀ i, i < max 34 (header_end f) → byteAt f i = byteAt g i) :
    parse_frame f = parse_frame g := by
  have hm : 34 ≤ max 34 (header_end f) := le_max_left _ _
  have e12 : byteAt f 12 = byteAt g 12 := hagree 12 (by omega)
  have e13 : byteAt f 13 = byteAt g 13 := hagree 13 (by omega)
  have e14 : byteAt f 14 = byteAt g 14 := hagree 14 (by omega)
  have e23 : byteAt f 23 = byteAt g 23 := hagree 23 (by omega)
  have e26 : byteAt f 26 = byteAt g 26 := hagree 26 (by omega)
  have e27 : byteAt f 27 = byteAt g 27 := hagree 27 (by omega)
  have e28 : byteAt f 28 = byteAt g 28 := hagree 28 (by omega)
  have e29 : byteAt f 29 = byteAt g 29 := hagree 29 (by omega)
  have r12 : readU16BE f 12 = readU16BE g 12 := by
    rw [readU16BE, readU16BE, e12, e13]
  have r26 : readU32BE f 26 = readU32BE g 26 := by
    rw [readU32BE, readU32BE, e26, e27, e28, e29]
  have hme : max 34 (header_end f) = max 34 (header_end g) := by
    rw [header_end, header_end, e14, e23]
  simp only [parse_frame, hlen, r12, r26, e14, e23]
  split_ifs with h1 h2 h3 h4 h5 h6 h7 h8
  any_goals rfl
  · have hhe : header_end f = 14 + byteAt g 14 % 16 * 4 + 20 := by
      rw [header_end, e14, e23, if_pos h5]
    have hb2 : byteAt f (14 + byteAt g 14 % 16 * 4 + 2)
        = byteAt g (14 + byteAt g 14 % 16 * 4 + 2) := by
      refine hagree _ ?_
      have := le_max_right 34 (header_end f)
      omega
    have hb3 : byteAt f (14 + byteAt g 14 % 16 * 4 + 3)
        = byteAt g (14 + byteAt g 14 % 16 * 4 + 3) := by
      refine hagree _ ?_
      have := le_max_right 34 (header_end f)
      omega
    rw [readU16BE, readU16BE, hb2]
    rw [show 14 + byteAt g 14 % 16 * 4 + 2 + 1
        = 14 + byteAt g 14 % 16 * 4 + 3 by omega, hb3]
  · have hhe : header_end f = 14 + byteAt g 14 % 16 * 4 + 8 := by
      rw [header_end, e14, e23, if_neg (by omega), if_pos h7]
    have hb2 : byteAt f (14 + byteAt g 14 % 16 * 4 + 2)
        = byteAt g (14 + byteAt g 14 % 16 * 4 + 2) := by
      refine hagree _ ?_
      have := le_max_right 34 (header_end f)
      omega
    have hb3 : byteAt f (14 + byteAt g 14 % 16 * 4 + 3)
        = byteAt g (14 + byteAt g 14 % 16 * 4 + 3) := by
      refine hagree _ ?_
      have := le_max_right 34 (header_end f)
      omega
    rw [readU16BE, readU16BE, hb2]
    rw [show 14 + byteAt g 14 % 16 * 4 + 2 + 1
        = 14 + byteAt g 14 % 16 * 4 + 3 by omega, hb3]

/-- C1: for every parsed IPv4 TCP/UDP packet whose destination port the
allow-list rejects, the verdict is DROP with a blocked statistics update,
uniformly in the CIDR rule table (the conclusion holds for every `rules`,
which the computation never consults on this path), and packets_blocked
increments by exactly 1. -/
theorem c1_default_deny (rules : Nat → CidrRule) (ports : Nat → Nat)
    (f : List Nat) (src_ip dest_port : Nat) (tcp udp sys api : Bool) (sz : Nat)
    (hp : parse_frame f = .parsed src_ip dest_port tcp udp sys api sz)
    (hport : check_port_allowed ports dest_port = false) :
    xdp_filter_func ⟨rules, ports⟩ f
      = (.DROP, some ⟨sz, false, tcp, udp, sys, api⟩)
    ∧ ∀ s, (apply_stats (xdp_filter_func ⟨rules, ports⟩ f).2 s).packets_blocked
        = s.packets_blocked + 1 := by
  have hres : xdp_filter_func ⟨rules, ports⟩ f
      = (.DROP, some ⟨sz, false, tcp, udp, sys, api⟩) := by
    simp only [xdp_filter_func, hp, decide_packet]
    simp [hport]
  refine ⟨hres, ?_⟩
  intro s
  rw [hres]
  simp only [apply_stats]
  rcases update_stats_fields ⟨sz, false, tcp, udp, sys, api⟩ s
    with ⟨-, -, -, -, u5, -⟩
  rw [u5]
  simp

/-- C1 witness: the spec's worked example, a UDP packet from 10.0.0.5 to
port 10500 against an empty allow-list. -/
theorem c1_default_deny_witness :
    xdp_filter_func ⟨fun _ => ⟨0, 0, 0, false⟩, fun _ => 0⟩ udpFrame10500
      = (.DROP, some ⟨42, false, false, true, true, false⟩)
    ∧ (apply_stats (xdp_filter_func
          ⟨fun _ => ⟨0, 0, 0, false⟩, fun _ => 0⟩ udpFrame10500).2
          XdpStats.zero).packets_blocked
        = XdpStats.zero.packets_blocked + 1 := by
  have h := c1_default_deny (fun _ => ⟨0, 0, 0, false⟩) (fun _ => 0)
    udpFrame10500 167772165 10500 false true true false 42
    (by decide) (by decide)
  exact ⟨h.1, h.2 XdpStats.zero⟩

/-- C3: for every buffer recognized as IPv4 (long enough for link + IPv4
headers, h_proto = 0x0800), the parser yields the malformed-drop outcome
exactly when the declared header length is below five 32-bit words or the
buffer cannot hold the declared TCP/UDP header; on that outcome the filter
returns DROP with no statistics update. -/
theorem c3_malformed_drop (cfg : FilterConfig) (f : List Nat)
    (h14 : 14 ≤ f.length) (hip : readU16BE f 12 = 0x0800)
    (h34 : 34 ≤ f.length) :
    (parse_frame f = .dropFrame ↔
      byteAt f 14 % 16 < 5
      ∨ (byteAt f 23 = 6 ∧ f.length < 14 + byteAt f 14 % 16 * 4 + 20)
      ∨ (byteAt f 23 = 17 ∧ f.length < 14 + byteAt f 14 % 16 * 4 + 8))
    ∧ (parse_frame f = .dropFrame →
        xdp_filter_func cfg f = (.DROP, none)
        ∧ ∀ s, apply_stats (xdp_filter_func cfg f).2 s = s) := by
  constructor
  · unfold parse_frame
    rw [if_neg (by omega : ¬ f.length < 14)]
    rw [if_neg (by simp [hip] : ¬ readU16BE f 12 ≠ 0x0800)]
    rw [if_neg (by omega : ¬ f.length < 34)]
    split_ifs with h5 h6 h7 h8 h9 <;> simp_all
  · intro hdrop
    have hres : xdp_filter_func cfg f = (.DROP, none) := by
      simp only [xdp_filter_func, hdrop]
    exact ⟨hres, fun s => by rw [hres]; rfl⟩

/-- C3 witness: a 34-byte IPv4 TCP frame too short for its TCP header. -/
theorem c3_malformed_drop_witness :
    parse_frame tcpTruncFrame = .dropFrame
    ∧ xdp_filter_func cfg0 tcpTruncFrame = (.DROP, none) := by
  have h := c3_malformed_drop cfg0 tcpTruncFrame (by decide) (by decide)
    (by decide)
  have hd : parse_frame tcpTruncFrame = .dropFrame :=
    h.1.mpr (Or.inr (Or.inl (by decide)))
  exact ⟨hd, (h.2 hd).1⟩

/-- C4: over any sequence of frames that each reach a statistics update,
packets_allowed + packets_blocked = packets_total = the number of frames,
likewise bytes_allowed + bytes_blocked = bytes_total; and every
update_stats call increments packets_total and exactly one of
packets_allowed and packets_blocked. -/
theorem c4_stats_conservation (cfg : FilterConfig) (fs : List (List Nat))
    (h : ∀ f ∈ fs, ((xdp_filter_func cfg f).2).isSome = true) :
    ((run_filter cfg fs XdpStats.zero).packets_allowed
        + (run_filter cfg fs XdpStats.zero).packets_blocked
      = (run_filter cfg fs XdpStats.zero).packets_total
    ∧ (run_filter cfg fs XdpStats.zero).packets_total = fs.length)
    ∧ (run_filter cfg fs XdpStats.zero).bytes_allowed
        + (run_filter cfg fs XdpStats.zero).bytes_blocked
      = (run_filter cfg fs XdpStats.zero).bytes_total
    ∧ (∀ a s, (update_stats a s).packets_total = s.packets_total + 1
        ∧ (a.allowed = true →
            (update_stats a s).packets_allowed = s.packets_allowed + 1
            ∧ (update_stats a s).packets_blocked = s.packets_blocked)
        ∧ (a.allowed = false →
            (update_stats a s).packets_blocked = s.packets_blocked + 1
            ∧ (update_stats a s).packets_allowed = s.packets_allowed)) := by
  obtain ⟨i1, i2, i3⟩ := run_filter_counts cfg fs h XdpStats.zero
  have z1 : XdpStats.zero.packets_total = 0 := rfl
  have z2 : XdpStats.zero.packets_allowed = 0 := rfl
  have z3 : XdpStats.zero.packets_blocked = 0 := rfl
  have z4 : XdpStats.zero.bytes_total = 0 := rfl
  have z5 : XdpStats.zero.bytes_allowed = 0 := rfl
  have z6 : XdpStats.zero.bytes_blocked = 0 := rfl
  refine ⟨⟨by omega, by omega⟩, by omega, ?_⟩
  intro a s
  rcases update_stats_fields a s with ⟨u1, -, u3, -, u5, -⟩
  refine ⟨u1, ?_, ?_⟩
  · intro hal
    rw [u3, u5]
    simp [hal]
  · intro hal
    rw [u3, u5]
    simp [hal]

/-- C4 witness: one TCP packet against the empty configuration. -/
theorem c4_stats_conservation_witness :
    (run_filter cfg0 [tcpFrame22] XdpStats.zero).packets_total = 1 := by
  have h := c4_stats_conservation cfg0 [tcpFrame22] (by decide)
  simpa using h.1.2

/-- C9: the verdict and statistics change are a deterministic function of
the rule tables, the frame length and the header bytes: two frames of
equal length that agree on the header region (bytes 0 up to the end of the
declared transport header, and at least the fixed 34 link + IPv4 header
bytes) receive identical results, whatever their payload bytes. -/
theorem c9_header_determinism (cfg : FilterConfig) (f g : List Nat)
    (hlen : f.length = g.length)
    (hagree : ∀ i, i < max 34 (header_end f) → byteAt f i = byteAt g i) :
    xdp_filter_func cfg f = xdp_filter_func cfg g := by
  unfold xdp_filter_func
  rw [parse_frame_agree f g hlen hagree]

/-- C9 witness: two 55-byte frames equal on all 54 header bytes and
differing in the single payload byte. -/
theorem c9_header_determinism_witness :
    xdp_filter_func cfgA (tcpFrame22 ++ [0])
      = xdp_filter_func cfgA (tcpFrame22 ++ [7]) :=
  c9_header_determinism cfgA (tcpFrame22 ++ [0]) (tcpFrame22 ++ [7])
    (by decide) (by decide)

/-- C10: the allow-list scan rejects port 0 for every table state (the
value 0 doubles as the end-of-list sentinel, and the sentinel test comes
before the equality test), so a parsed packet with destination port 0 is
always dropped at the port gate with a blocked statistics update. -/
theorem c10_port_zero (tbl : Nat → Nat) (cfg : FilterConfig) (f : List Nat)
    (src_ip : Nat) (tcp udp sys api : Bool) (sz : Nat)
    (hp : parse_frame f = .parsed src_ip 0 tcp udp sys api sz) :
    check_port_allowed tbl 0 = false
    ∧ xdp_filter_func cfg f = (.DROP, some ⟨sz, false, tcp, udp, sys, api⟩) := by
  refine ⟨check_port_loop_port_zero tbl 64 0, ?_⟩
  simp only [xdp_filter_func, hp, decide_packet]
  simp [check_port_loop_port_zero cfg.allowed_ports 64 0, check_port_allowed]

/-- C10 witness: a TCP packet to port 0 against a table with no sentinel. -/
theorem c10_port_zero_witness :
    check_port_allowed (fun _ => 22) 0 = false
    ∧ xdp_filter_func cfgA tcpFrame0
      = (.DROP, some ⟨54, false, true, false, false, false⟩) :=
  c10_port_zero (fun _ => 22) cfgA tcpFrame0 167772165 true false false false
    54 (by decide)

/-- C2: for a parsed packet that passes the port gate, the CIDR scan over
slots 0..1023 succeeds iff some slot satisfies the match condition
(enabled, wildcard-or-equal port, masked source-network equality); the
verdict is PASS iff such a slot exists (so the first matching slot alone
determines the outcome, every match being an allow), and with no matching
slot the verdict is DROP with a blocked statistics update. -/
theorem c2_cidr_scan (cfg : FilterConfig) (f : List Nat)
    (src_ip dest_port : Nat) (tcp udp sys api : Bool) (sz : Nat)
    (hp : parse_frame f = .parsed src_ip dest_port tcp udp sys api sz)
    (hport : check_port_allowed cfg.allowed_ports dest_port = true) :
    (find_cidr_loop cfg.cidr_rules src_ip dest_port 0 1024 = true ↔
      ∃ i, i < 1024 ∧ slot_match (cfg.cidr_rules i) src_ip dest_port)
    ∧ ((xdp_filter_func cfg f).1 = .PASS ↔
      ∃ i, i < 1024 ∧ slot_match (cfg.cidr_rules i) src_ip dest_port)
    ∧ ((¬ ∃ i, i < 1024 ∧ slot_match (cfg.cidr_rules i) src_ip dest_port) →
      xdp_filter_func cfg f
        = (.DROP, some ⟨sz, false, tcp, udp, sys, api⟩)) := by
  have hiff := find_cidr_iff cfg.cidr_rules src_ip dest_port
  have hgate : ¬ check_port_allowed cfg.allowed_ports dest_port = false := by
    rw [hport]; simp
  refine ⟨hiff, ?_, ?_⟩
  · simp only [xdp_filter_func, hp, decide_packet, if_neg hgate]
    by_cases hf : find_cidr_loop cfg.cidr_rules src_ip dest_port 0 1024 = true
    · rw [if_pos hf]
      simp only [true_iff]
      exact hiff.mp hf
    · rw [if_neg hf]
      constructor
      · intro hc; exact absurd hc (by simp)
      · intro he; exact absurd (hiff.mpr he) hf
  · intro hne
    have hf : find_cidr_loop cfg.cidr_rules src_ip dest_port 0 1024 = false := by
      rcases Bool.eq_false_or_eq_true
          (find_cidr_loop cfg.cidr_rules src_ip dest_port 0 1024) with h | h
      · exact absurd (hiff.mp h) hne
      · exact h
    simp only [xdp_filter_func, hp, decide_packet, if_neg hgate, hf]
    simp

/-- C2 witness: the spec's worked example, a TCP packet from 10.0.0.5 to
port 22, allow-list [22, 0, ...], CIDR slot 0 = 10.0.0.0/24 any-port. -/
theorem c2_cidr_scan_witness : (xdp_filter_func cfgA tcpFrame22).1 = .PASS :=
  ((c2_cidr_scan cfgA tcpFrame22 167772165 22 true false false false 54
      (by decide) (by decide)).2.1).mpr
    ⟨0, by omega, by decide, Or.inl (by decide), by decide⟩

/-- C5 as stated is false on the code: badIhlFrame is recognized as IPv4
and its protocol 42 is neither TCP nor UDP, yet the verdict is DROP, not
PASS (the malformed header-length check precedes the protocol check). -/
theorem c5_pass_through_counterexample :
    byteAt badIhlFrame 23 = 42
    ∧ readU16BE badIhlFrame 12 = 0x0800
    ∧ 34 ≤ badIhlFrame.length
    ∧ xdp_filter_func cfg0 badIhlFrame = (.DROP, none) := by
  refine ⟨by decide, by decide, by decide, ?_⟩
  decide

/-- C5 amended: every frame that is not IPv4 (wrong link-layer type or
buffer too short for link + IPv4 headers), and every frame whose IPv4
header length is well-formed (ihl at least 5) and whose protocol is
neither TCP nor UDP, gets verdict PASS with every statistics counter left
unchanged. -/
theorem c5_pass_through_amended (cfg : FilterConfig) (f : List Nat)
    (h : f.length < 14 ∨ readU16BE f 12 ≠ 0x0800 ∨ f.length < 34
      ∨ (5 ≤ byteAt f 14 % 16 ∧ byteAt f 23 ≠ 6 ∧ byteAt f 23 ≠ 17)) :
    xdp_filter_func cfg f = (.PASS, none)
    ∧ ∀ s, apply_stats (xdp_filter_func cfg f).2 s = s := by
  have hpass : parse_frame f = .passFrame := by
    unfold parse_frame
    rcases h with h1 | h2 | h3 | ⟨h4, h5, h6⟩
    · rw [if_pos h1]
    · by_cases h1 : f.length < 14
      · rw [if_pos h1]
      · rw [if_neg h1, if_pos h2]
    · by_cases h1 : f.length < 14
      · rw [if_pos h1]
      · by_cases h2 : readU16BE f 12 ≠ 0x0800
        · rw [if_neg h1, if_pos h2]
        · rw [if_neg h1, if_neg h2, if_pos h3]
    · by_cases h1 : f.length < 14
      · rw [if_pos h1]
      · by_cases h2 : readU16BE f 12 ≠ 0x0800
        · rw [if_neg h1, if_pos h2]
        · by_cases h3 : f.length < 34
          · rw [if_neg h1, if_neg h2, if_pos h3]
          · rw [if_neg h1, if_neg h2, if_neg h3,
              if_neg (by omega : ¬ byteAt f 14 % 16 < 5),
              if_neg h5, if_neg h6]
  have hres : xdp_filter_func cfg f = (.PASS, none) := by
    simp only [xdp_filter_func, hpass]
  exact ⟨hres, fun s => by rw [hres]; rfl⟩

/-- C5 amended witness: the empty buffer. -/
theorem c5_pass_through_amended_witness :
    xdp_filter_func cfg0 [] = (.PASS, none)
    ∧ apply_stats (xdp_filter_func cfg0 []).2 XdpStats.zero = XdpStats.zero := by
  have h := c5_pass_through_amended cfg0 [] (Or.inl (by decide))
  exact ⟨h.1, h.2 XdpStats.zero⟩

/-- C6 as stated is false on the code: with the all-zero table and port 0,
index 0 holds an entry equal to the port and no smaller index holds the
sentinel, yet the scan returns false (the sentinel test precedes the
equality test). -/
theorem c6_port_scan_counterexample :
    check_port_allowed (fun _ => 0) 0 = false
    ∧ ∃ k, k < 64 ∧ (fun _ : Nat => (0 : Nat)) k = 0
        ∧ ∀ j, j < k → (fun _ : Nat => (0 : Nat)) j ≠ 0 :=
  ⟨rfl, 0, by omega, rfl, fun j hj => absurd hj (Nat.not_lt_zero j)⟩

/-- C6 amended: the scan returns true iff some index k below 64 holds an
entry equal to the port while no index up to and including k holds the
sentinel 0 (so the entry found is itself nonzero and port 0 is never
allowed); a 0 at index k makes every entry beyond k unreachable; and
entries at index 64 and beyond are never inspected. -/
theorem c6_port_scan_amended (tbl : Nat → Nat) (port : Nat) :
    (check_port_allowed tbl port = true ↔
      ∃ k, k < 64 ∧ tbl k = port ∧ ∀ j, j ≤ k → tbl j ≠ 0)
    ∧ (∀ k tbl2, k < 64 → tbl k = 0 → (∀ j, j ≤ k → tbl2 j = tbl j) →
        check_port_allowed tbl2 port = check_port_allowed tbl port)
    ∧ (∀ tbl2, (∀ j, j < 64 → tbl2 j = tbl j) →
        check_port_allowed tbl2 port = check_port_allowed tbl port) := by
  refine ⟨check_port_allowed_iff tbl port, ?_, ?_⟩
  · intro k tbl2 hk hzero hag
    unfold check_port_allowed
    exact check_port_loop_stops_at_zero tbl tbl2 port 64 0 k (Nat.zero_le k)
      hzero (by rw [hag k le_rfl]; exact hzero) (fun j _ hj => hag j hj)
  · intro tbl2 hag
    unfold check_port_allowed
    exact check_port_loop_agree tbl tbl2 port 64 0
      (fun j _ hj => hag j (by omega))

/-- C6 amended witness: allow-list [22, 0, ...] accepts port 22. -/
theorem c6_port_scan_amended_witness :
    check_port_allowed (fun i => if i = 0 then 22 else 0) 22 = true :=
  (c6_port_scan_amended (fun i => if i = 0 then 22 else 0) 22).1.mpr
    ⟨0, by omega, by decide, fun j hj => by
      have hj0 : j = 0 := Nat.le_zero.mp hj
      subst hj0
      decide⟩

/-- C7: for every parsed packet, is_api holds iff the transport is TCP and
the destination port is 80, 443, 8081 or 8082, and is_syslog holds iff the
transport is UDP and the destination port lies in [10000, 11000]; the two
tags never influence the verdict; and a tagged packet's classification
counter is incremented by the statistics update even when the verdict is
DROP. -/
theorem c7_traffic_tags (cfg : FilterConfig) (f : List Nat)
    (src_ip dest_port : Nat) (tcp udp sys api : Bool) (sz : Nat)
    (hp : parse_frame f = .parsed src_ip dest_port tcp udp sys api sz) :
    (api = true ↔ tcp = true ∧ (dest_port = 80 ∨ dest_port = 443
        ∨ dest_port = 8081 ∨ dest_port = 8082))
    ∧ (sys = true ↔ udp = true ∧ 10000 ≤ dest_port ∧ dest_port ≤ 11000)
    ∧ (∀ sys2 api2 : Bool,
        (decide_packet cfg src_ip dest_port tcp udp sys2 api2 sz).1
          = (decide_packet cfg src_ip dest_port tcp udp sys api sz).1)
    ∧ (udp = true → sys = true → ∀ s,
        (apply_stats (xdp_filter_func cfg f).2 s).syslog_packets
          = s.syslog_packets + 1)
    ∧ (tcp = true → api = true → ∀ s,
        (apply_stats (xdp_filter_func cfg f).2 s).api_packets
          = s.api_packets + 1) := by
  obtain ⟨htag1, htag2⟩ :=
    parse_frame_tags f src_ip dest_port tcp udp sys api sz hp
  refine ⟨htag1, htag2, ?_, ?_, ?_⟩
  · intro sys2 api2
    unfold decide_packet
    by_cases hq : check_port_allowed cfg.allowed_ports dest_port = false
    · rw [if_pos hq, if_pos hq]
    · rw [if_neg hq, if_neg hq]
  · intro hudp hsys s
    have htcp : tcp = false := by
      rcases (parse_frame_flags f src_ip dest_port tcp udp sys api sz hp).1
        with ⟨-, h2⟩ | ⟨h1, -⟩
      · rw [hudp] at h2; cases h2
      · exact h1
    simp only [xdp_filter_func, hp, decide_packet]
    by_cases hq : check_port_allowed cfg.allowed_ports dest_port = false
    · rw [if_pos hq]
      simp only [apply_stats]
      rcases update_stats_fields ⟨sz, false, tcp, udp, sys, api⟩ s
        with ⟨-, -, -, -, -, -, -, -, -, u10⟩
      rw [u10]
      simp [htcp, hudp, hsys]
    · rw [if_neg hq]
      simp only [apply_stats]
      rcases update_stats_fields
          ⟨sz, find_cidr_loop cfg.cidr_rules src_ip dest_port 0 1024,
            tcp, udp, sys, api⟩ s
        with ⟨-, -, -, -, -, -, -, -, -, u10⟩
      rw [u10]
      simp [htcp, hudp, hsys]
  · intro htcp hapi s
    simp only [xdp_filter_func, hp, decide_packet]
    by_cases hq : check_port_allowed cfg.allowed_ports dest_port = false
    · rw [if_pos hq]
      simp only [apply_stats]
      rcases update_stats_fields ⟨sz, false, tcp, udp, sys, api⟩ s
        with ⟨-, -, -, -, -, -, -, u8, -, -⟩
      rw [u8]
      simp [htcp, hapi]
    · rw [if_neg hq]
      simp only [apply_stats]
      rcases update_stats_fields
          ⟨sz, find_cidr_loop cfg.cidr_rules src_ip dest_port 0 1024,
            tcp, udp, sys, api⟩ s
        with ⟨-, -, -, -, -, -, -, u8, -, -⟩
      rw [u8]
      simp [htcp, hapi]

/-- C7 witness: the spec's worked example, a blocked UDP packet to port
10500 whose syslog_packets counter is still incremented. -/
theorem c7_traffic_tags_witness :
    (apply_stats (xdp_filter_func cfg0 udpFrame10500).2
        XdpStats.zero).syslog_packets
      = XdpStats.zero.syslog_packets + 1 :=
  (c7_traffic_tags cfg0 udpFrame10500 167772165 10500 false true true false
      42 (by decide)).2.2.2.1 rfl rfl XdpStats.zero

/-- C8 as stated is false on the code: with is_tcp and is_udp both set,
the record operation does not increment udp_packets or syslog_packets
(the UDP arm sits in an else-if behind the TCP arm). -/
theorem c8_record_counterexample :
    (⟨100, true, true, true, true, false⟩ : StatsArgs).is_udp = true
    ∧ (update_stats ⟨100, true, true, true, true, false⟩
        XdpStats.zero).udp_packets = 0
    ∧ (update_stats ⟨100, true, true, true, true, false⟩
        XdpStats.zero).syslog_packets = 0 := by
  decide

/-- C8 amended: the record operation increments packets_total/bytes_total
unconditionally; packets_allowed/bytes_allowed or packets_blocked/
bytes_blocked according to `allowed`; tcp_packets (and, if is_api,
api_packets) when is_tcp; and udp_packets (and, if is_syslog,
syslog_packets) when is_udp and not is_tcp — no other counter changes. -/
theorem c8_record_amended (a : StatsArgs) (s : XdpStats) :
    (update_stats a s).packets_total = s.packets_total + 1
    ∧ (update_stats a s).bytes_total = s.bytes_total + a.packet_size
    ∧ (update_stats a s).packets_allowed
        = s.packets_allowed + (if a.allowed = true then 1 else 0)
    ∧ (update_stats a s).bytes_allowed
        = s.bytes_allowed + (if a.allowed = true then a.packet_size else 0)
    ∧ (update_stats a s).packets_blocked
        = s.packets_blocked + (if a.allowed = true then 0 else 1)
    ∧ (update_stats a s).bytes_blocked
        = s.bytes_blocked + (if a.allowed = true then 0 else a.packet_size)
    ∧ (update_stats a s).tcp_packets
        = s.tcp_packets + (if a.is_tcp = true then 1 else 0)
    ∧ (update_stats a s).api_packets
        = s.api_packets + (if a.is_tcp = true ∧ a.is_api = true then 1 else 0)
    ∧ (update_stats a s).udp_packets
        = s.udp_packets + (if a.is_tcp = false ∧ a.is_udp = true then 1 else 0)
    ∧ (update_stats a s).syslog_packets
        = s.syslog_packets
          + (if a.is_tcp = false ∧ a.is_udp = true ∧ a.is_syslog = true
             then 1 else 0) :=
  update_stats_fields a s

end XdpFilter
